import Mathlib

/-!
Verification development for the OrderWatch frontend orchestration layer.

The definitions below are a shallow embedding of the API service module
(src/unnamed/part_003) and of the cancel handler (src/frontend/src/App.jsx):
request deduplication (activeRequests registry), bounded exponential-backoff
retry (makeRequestWithRetry), the five typed operations (checkHealth,
startScraping, getScrapingStatus, getResults, stopScraping) and the polling
loop (pollScrapingProgress).

Modelling conventions:
- A JavaScript error is a JsError carrying its constructor name, message and
  numeric status (ApiError always sets a status; other errors are normalised
  by makeRequest's catch block before they can escape).
- Network traffic is represented by scripts: a function from the attempt or
  tick index to the outcome the underlying fetch (or makeRequest) produced.
- The sanitizer boundary (DOMPurify with no allowed tags plus trim) is an
  external collaborator per the specification and is modelled as the identity
  on the markup-free text the claims are about.
- Optional JSON fields are Option values; a missing field is none.  JavaScript
  truthiness of a string field is jsTruthyStr; the a-or-default idiom with
  the or-operator is jsOrDefault.
-/

deriving instance DecidableEq for Except

/-- A JavaScript error value as it circulates in the service layer: its
constructor name (ApiError, AbortError, TypeError, ...), message and numeric
status.  ApiError (part_003 lines 18-25) stores message and status. -/
structure JsError where
  name : String
  message : String
  status : Nat
  deriving DecidableEq, Repr

/-- part_003 line 7. -/
def MAX_RETRY_ATTEMPTS : Nat := 3

/-- part_003 line 8 (milliseconds). -/
def RETRY_DELAY : Nat := 1000

/-- JavaScript truthiness of a possibly-missing string field: undefined, null
and the empty string are falsy. -/
def jsTruthyStr (o : Option String) : Bool :=
  match o with
  | none => false
  | some s => !(s == "")

/-- The JavaScript idiom value-or-default (x or-else d) on a possibly-missing
string: the default is used when the field is absent or the empty string. -/
def jsOrDefault (o : Option String) (d : String) : String :=
  match o with
  | some s => if s == "" then d else s
  | none => d

/-- needle appears at the head of hay. -/
def listStartsWith (needle hay : List Char) : Bool :=
  match needle, hay with
  | [], _ => true
  | _ :: _, [] => false
  | a :: as, b :: bs => a == b && listStartsWith as bs

/-- needle appears somewhere inside hay (substring test used to model
JavaScript String.prototype.includes). -/
def listContainsSub (needle hay : List Char) : Bool :=
  match hay with
  | [] => listStartsWith needle []
  | _ :: t => listStartsWith needle hay || listContainsSub needle t

/-- JavaScript s.includes(needle). -/
def strIncludes (hay needle : String) : Bool :=
  listContainsSub needle.toList hay.toList

/-- The retry classification of makeRequestWithRetry (part_003 line 77):
status 0 (network failure), status at least 500, or an AbortError. -/
def shouldRetry (e : JsError) : Bool :=
  e.status == 0 || decide (500 ≤ e.status) || e.name == "AbortError"

/-- The catch block of makeRequest (part_003 lines 162-173): every error that
leaves makeRequest is normalised to an ApiError.  An AbortError (the request
timeout firing) becomes an ApiError with status 408; a fetch-level TypeError
becomes an ApiError with status 0; anything else becomes an ApiError with
status 0 and a fallback message. -/
def makeRequestCatch (e : JsError) : JsError :=
  if e.name == "AbortError" then
    ⟨"ApiError", "Request timeout - server is taking too long to respond", 408⟩
  else if e.name == "ApiError" then e
  else if e.name == "TypeError" && strIncludes e.message "fetch" then
    ⟨"ApiError", "Unable to connect to server. Please check if the server is running.", 0⟩
  else if e.message == "" then ⟨"ApiError", "An unexpected error occurred", 0⟩
  else ⟨"ApiError", e.message, 0⟩

/-- One makeRequest call as seen by its caller: the fetch-level outcome with
errors normalised by the catch block (part_003 lines 98-177).  HTTP error
statuses (non-2xx, 429) are already ApiError values in the fetch outcome,
produced by the throw sites at lines 135-150. -/
def makeRequestOutcome {α : Type} (fetchOutcome : Except JsError α) : Except JsError α :=
  match fetchOutcome with
  | .ok v => .ok v
  | .error e => .error (makeRequestCatch e)

/-- Instrumented run of makeRequestWithRetry (part_003 lines 72-84) over a
script giving the outcome of each attempt (attempts are numbered from 1).
Returns the final result, the number of the last attempt made, and the list of
backoff delays slept between attempts.  The fuel argument only serves
termination; from the entry point it is MAX_RETRY_ATTEMPTS, which is never
exhausted because the attempt counter reaches MAX_RETRY_ATTEMPTS first. -/
def retryRun {α : Type} (script : Nat → Except JsError α) (attempt : Nat) :
    Nat → Except JsError α × Nat × List Nat
  | 0 => (script attempt, attempt, [])
  | fuel + 1 =>
    match script attempt with
    | .ok v => (.ok v, attempt, [])
    | .error e =>
      if MAX_RETRY_ATTEMPTS ≤ attempt then (.error e, attempt, [])
      else if !shouldRetry e then (.error e, attempt, [])
      else
        let d := RETRY_DELAY * 2 ^ (attempt - 1)
        match retryRun script (attempt + 1) fuel with
        | (res, lastA, ds) => (res, lastA, d :: ds)

/-- makeRequestWithRetry (part_003 lines 72-84): the result surfaced to the
caller after at most MAX_RETRY_ATTEMPTS attempts. -/
def makeRequestWithRetry {α : Type} (script : Nat → Except JsError α) : Except JsError α :=
  (retryRun script 1 MAX_RETRY_ATTEMPTS).1

/-- Number of the last attempt actually made by makeRequestWithRetry. -/
def retryAttempts {α : Type} (script : Nat → Except JsError α) : Nat :=
  (retryRun script 1 MAX_RETRY_ATTEMPTS).2.1

/-- The backoff delays slept by makeRequestWithRetry, in order. -/
def retryDelays {α : Type} (script : Nat → Except JsError α) : List Nat :=
  (retryRun script 1 MAX_RETRY_ATTEMPTS).2.2

/-- The backoff computed after a failed attempt (part_003 line 79): this is the
delay slept before attempt number (attempt + 1). -/
def backoffAfterAttempt (attempt : Nat) : Nat := RETRY_DELAY * 2 ^ (attempt - 1)

/-- The retrying pipeline over raw fetch outcomes: each attempt is one
makeRequest call (fetch outcome normalised by the catch block). -/
def retryOverFetch {α : Type} (fetchScript : Nat → Except JsError α) : Except JsError α :=
  makeRequestWithRetry (fun n => makeRequestOutcome (fetchScript n))

/-- Number of attempts made by the retrying pipeline over raw fetch outcomes. -/
def retryOverFetchAttempts {α : Type} (fetchScript : Nat → Except JsError α) : Nat :=
  retryAttempts (fun n => makeRequestOutcome (fetchScript n))

/-- Decoded body of the results endpoint as used by getResults (part_003
lines 247-263): the success flag must be the boolean true and orders must be
an array.  Other fields are only logged. -/
structure RawResults where
  success : Option Bool
  orders : Option (List String)
  deriving DecidableEq, Repr

/-- Decoded body of the status endpoint as used by getScrapingStatus and the
poll loop (part_003 lines 230-245 and 296-319).  is_running is some b when the
field is present with truthiness b; progress is the numeric field when present. -/
structure RawStatusBody where
  is_running : Option Bool
  progress : Option Int
  message : Option String
  error : Option String
  results : Option RawResults
  deriving DecidableEq, Repr

/-- Decoded body of the health endpoint (only presence of status matters). -/
structure RawHealth where
  status : Option String
  deriving DecidableEq, Repr

/-- Decoded body of the scrape-start endpoint (only presence of message
matters). -/
structure RawScrape where
  message : Option String
  deriving DecidableEq, Repr

/-- Decoded body of the stop endpoint (never validated). -/
structure RawStop where
  message : Option String
  deriving DecidableEq, Repr

/-- The object resolved by checkHealth, startScraping, getResults and
stopScraping: on success it carries data and message; on failure it carries an
error message and a numeric status.  Absent JavaScript fields are none. -/
structure OpResult (α : Type) where
  success : Bool
  data : Option α
  message : Option String
  error : Option String
  status : Option Nat
  deriving DecidableEq, Repr

/-- The object resolved by getScrapingStatus (part_003 lines 230-245): on top
of the OpResult fields it always reports isRunning and progress. -/
structure StatusResult where
  success : Bool
  data : Option RawStatusBody
  isRunning : Bool
  progress : Int
  message : Option String
  error : Option String
  status : Option Nat
  deriving DecidableEq, Repr

/-- The progress normalisation of getScrapingStatus (part_003 line 238):
Number(x) with the or-zero fallback, clamped into the interval 0..100. -/
def clampProgress (p : Option Int) : Int :=
  max 0 (min 100 (p.getD 0))

/-- checkHealth (part_003 lines 184-194): a retried GET of the health
endpoint; requires the status field (validateResponse, lines 44-54); every
failure is caught and returned as a success-false object. -/
def checkHealth (fetchScript : Nat → Except JsError RawHealth) : OpResult RawHealth :=
  match retryOverFetch fetchScript with
  | .ok r =>
    match r.status with
    | some _ => ⟨true, some r, some "Server is healthy", none, none⟩
    | none => ⟨false, none, none, some "Missing required field: status", some 0⟩
  | .error e => ⟨false, none, none, some e.message, some e.status⟩

/-- getScrapingStatus (part_003 lines 230-245) applied to the outcome of its
single makeRequest call: requires is_running, clamps progress, and defaults
message when absent or empty; every failure is caught and returned with
success false, isRunning false and progress 0. -/
def getScrapingStatus (resp : Except JsError RawStatusBody) : StatusResult :=
  match resp with
  | .ok r =>
    match r.is_running with
    | none => ⟨false, none, false, 0, none, some "Missing required field: is_running", some 0⟩
    | some b =>
      ⟨true, some r, b, clampProgress r.progress,
        some (jsOrDefault r.message "Status retrieved successfully"), none, none⟩
  | .error e => ⟨false, none, false, 0, none, some e.message, some e.status⟩

/-- getResults (part_003 lines 247-263) applied to the outcome of its single
makeRequest call: requires the boolean success flag to be true and orders to
be an array, otherwise throws Results not ready with status 202 (caught and
returned as a success-false object). -/
def getResults (resp : Except JsError RawResults) : OpResult RawResults :=
  match resp with
  | .ok r =>
    if r.success == some true && r.orders.isSome then
      ⟨true, some r, some "Results retrieved successfully", none, none⟩
    else ⟨false, none, none, some "Results not ready", some 202⟩
  | .error e => ⟨false, none, none, some e.message, some e.status⟩

/-- stopScraping (part_003 lines 265-274) applied to the outcome of its single
makeRequest call: best-effort, no response validation. -/
def stopScraping (resp : Except JsError RawStop) : OpResult RawStop :=
  match resp with
  | .ok r => ⟨true, some r, some "Scraping stopped successfully", none, none⟩
  | .error e => ⟨false, none, none, some e.message, some e.status⟩

/-- The status request as the source issues it (part_003 line 232): one
makeRequest call on the first fetch outcome, no retry. -/
def getStatusViaMakeRequest (fetchScript : Nat → Except JsError RawStatusBody) : StatusResult :=
  getScrapingStatus (makeRequestOutcome (fetchScript 1))

/-- Modelled from the spec: the claim asserts every status poll is issued
through the RequestCoordinator retry path (makeRequestWithRetry).  The source
has no such code path for status polls; this definition follows the spec
wording so it can be compared with getStatusViaMakeRequest. -/
def getStatusSpecRetry (fetchScript : Nat → Except JsError RawStatusBody) : StatusResult :=
  getScrapingStatus (retryOverFetch fetchScript)

/-- A calendar date (year, month, day) standing for the UTC midnight instant
that new Date("YYYY-MM-DD") denotes. -/
structure CivilDate where
  y : Nat
  m : Nat
  d : Nat
  deriving DecidableEq, Repr

/-- Strict comparison of the UTC midnight instants of two calendar dates:
lexicographic on (year, month, day). -/
def civilLt (a b : CivilDate) : Bool :=
  decide (a.y < b.y) ||
    (a.y == b.y && (decide (a.m < b.m) || (a.m == b.m && decide (a.d < b.d))))

/-- The regular expression of startScraping (part_003 line 202): four digits,
a dash, two digits, a dash, two digits, anchored at both ends. -/
def dateShape (s : String) : Bool :=
  match s.toList with
  | [y1, y2, y3, y4, s1, m1, m2, s2, d1, d2] =>
    y1.isDigit && y2.isDigit && y3.isDigit && y4.isDigit && s1 == '-' &&
      m1.isDigit && m2.isDigit && s2 == '-' && d1.isDigit && d2.isDigit
  | _ => false

/-- Gregorian leap year. -/
def isLeap (y : Nat) : Bool :=
  (y % 4 == 0 && !(y % 100 == 0)) || y % 400 == 0

/-- Number of days of a month (months numbered 1..12). -/
def daysInMonth (y m : Nat) : Nat :=
  if m == 2 then (if isLeap y then 29 else 28)
  else if m == 4 || m == 6 || m == 9 || m == 11 then 30
  else 31

/-- new Date("YYYY-MM-DD") (part_003 line 205): for a string of the shape the
regular expression accepted, the ECMAScript date-time string format yields a
valid date exactly when the month is 1..12 and the day fits the month;
otherwise the result is an invalid date (modelled as none).  Strings of any
other shape are not produced by startScraping's parse (the regular expression
has already rejected them); they also map to none. -/
def parseCivil (s : String) : Option CivilDate :=
  match s.toList with
  | [y1, y2, y3, y4, s1, m1, m2, s2, d1, d2] =>
    if y1.isDigit && y2.isDigit && y3.isDigit && y4.isDigit && s1 == '-' &&
        m1.isDigit && m2.isDigit && s2 == '-' && d1.isDigit && d2.isDigit then
      let y := (y1.toNat - 48) * 1000 + (y2.toNat - 48) * 100 +
        (y3.toNat - 48) * 10 + (y4.toNat - 48)
      let m := (m1.toNat - 48) * 10 + (m2.toNat - 48)
      let d := (d1.toNat - 48) * 10 + (d2.toNat - 48)
      if 1 ≤ m && m ≤ 12 && 1 ≤ d && d ≤ daysInMonth y m then some ⟨y, m, d⟩
      else none
    else none
  | _ => none

/-- The minimum accepted date (part_003 line 207). -/
def minScrapeDate : CivilDate := ⟨2010, 1, 1⟩

/-- startScraping (part_003 lines 196-228).  today is the calendar date of the
instant new Date() returns.  The second component records whether the POST to
the scrape endpoint was issued (true) or the input was rejected locally
(false).  The date string has already crossed the sanitizer boundary. -/
def startScraping (today : CivilDate) (date : String)
    (fetchScript : Nat → Except JsError RawScrape) : OpResult RawScrape × Bool :=
  if date == "" then
    (⟨false, none, none, some "Date is required", some 400⟩, false)
  else if !dateShape date then
    (⟨false, none, none, some "Invalid date format. Please use YYYY-MM-DD format.", some 400⟩, false)
  else
    match parseCivil date with
    | none => (⟨false, none, none, some "Invalid date provided", some 400⟩, false)
    | some dt =>
      if civilLt today dt then
        (⟨false, none, none, some "Date cannot be in the future", some 400⟩, false)
      else if civilLt dt minScrapeDate then
        (⟨false, none, none, some "Date cannot be before 2010", some 400⟩, false)
      else
        match retryOverFetch fetchScript with
        | .ok r =>
          match r.message with
          | some _ => (⟨true, some r, some "Scraping started successfully", none, none⟩, true)
          | none => (⟨false, none, none, some "Missing required field: message", some 0⟩, true)
        | .error e => (⟨false, none, none, some e.message, some e.status⟩, true)

/-- The in-flight request registry (part_003 line 67): the list of outstanding
dedup keys with the identity of the shared pending promise each one maps to,
plus a counter supplying fresh promise identities. -/
structure RegState where
  active : List (String × Nat)
  nextId : Nat
  deriving DecidableEq, Repr

/-- getRequestKey (part_003 line 68): method defaulting to GET when absent or
empty, the url, and the canonical serialization of the body (an absent or
empty body serializes to the empty JSON object). -/
def getRequestKey (method : Option String) (url : String) (body : Option String) : String :=
  jsOrDefault method "GET" ++ ":" ++ url ++ ":" ++ jsOrDefault body "\x7b\x7d"

/-- The pending promise registered for a key, if any. -/
def lookupKey (st : RegState) (k : String) : Option Nat :=
  match st.active.find? (fun p => p.1 == k) with
  | some p => some p.2
  | none => none

/-- A key is outstanding. -/
def hasKey (st : RegState) (k : String) : Bool :=
  (lookupKey st k).isSome

/-- The registry effect of one makeRequest call (part_003 lines 90-93 and
179-180): a call whose key is outstanding returns the registered promise and
dispatches nothing; otherwise a fresh promise is created, registered under the
key, and one network request is dispatched for it.  Returns the promise the
caller receives, the new registry state, and whether a network request was
dispatched. -/
def makeRequestReg (st : RegState) (k : String) : Nat × RegState × Bool :=
  match lookupKey st k with
  | some pid => (pid, st, false)
  | none => (st.nextId, ⟨(k, st.nextId) :: st.active, st.nextId + 1⟩, true)

/-- The registry effect of a call settling (the finally block, part_003
lines 174-176): the key is removed whether the call succeeded or failed. -/
def settleReg (st : RegState) (k : String) : RegState :=
  ⟨st.active.filter (fun p => !(p.1 == k)), st.nextId⟩

/-- part_003 line 283. -/
def maxPolls : Nat := 300

/-- The object pollScrapingProgress resolves with (part_003 lines 287-323):
success flag, error message, numeric status, result payload and message;
absent fields are none. -/
structure PollResult where
  success : Bool
  error : Option String
  status : Option Nat
  data : Option RawResults
  message : Option String
  deriving DecidableEq, Repr

/-- The timeout outcome of the poll loop (part_003 line 288). -/
def pollTimeoutResult : PollResult :=
  ⟨false, some "Polling timeout - operation took too long", some 408, none, none⟩

/-- View of an OpResult from getResults as the object the poll loop resolves
with (part_003 line 318 resolves the getResults return value directly). -/
def opToPoll (o : OpResult RawResults) : PollResult :=
  ⟨o.success, o.error, o.status, o.data, o.message⟩

/-- One run of the poll function of pollScrapingProgress (part_003 lines
284-326).  statusScript i is the outcome of the makeRequest issued by the
(i+1)-st status poll; resultsScript j is the outcome of the makeRequest issued
by the (j+1)-st getResults call.  pollCount and rIdx are the ticks,
respectively getResults calls, already consumed.  The fuel only serves
termination; called with fuel + pollCount = maxPolls + 1 the sentinel none
(the promise never resolving) is unreachable, which theorem
pollScrapingProgress_terminates proves.  Returns the resolved object, the
number of status polls performed and the number of getResults calls
performed.  The progress callback is invoked with snapshot data and cannot
influence the loop (its exceptions are caught, lines 298-302), so it is not
modelled. -/
def pollAux (statusScript : Nat → Except JsError RawStatusBody)
    (resultsScript : Nat → Except JsError RawResults) :
    Nat → Nat → Nat → Option (PollResult × Nat × Nat)
  | _, _, 0 => none
  | pollCount, rIdx, fuel + 1 =>
    let pc := pollCount + 1
    if maxPolls < pc then some (pollTimeoutResult, 0, 0)
    else
      let s := getScrapingStatus (statusScript (pc - 1))
      if s.success = false then some (⟨false, s.error, s.status, none, none⟩, 1, 0)
      else
        match s.data with
        | none => none
        | some d =>
          if s.isRunning then
            match pollAux statusScript resultsScript pc rIdx fuel with
            | none => none
            | some (r, sp, gr) => some (r, sp + 1, gr)
          else
            if jsTruthyStr d.error then
              some (⟨false, d.error, none, none, d.message⟩, 1, 0)
            else
              match d.results with
              | some res =>
                some (⟨true, none, none, some res, some "Scraping completed successfully"⟩, 1, 0)
              | none =>
                let rr := getResults (resultsScript rIdx)
                if rr.success = false then
                  match pollAux statusScript resultsScript pc (rIdx + 1) fuel with
                  | none => none
                  | some (r, sp, gr) => some (r, sp + 1, gr + 1)
                else some (opToPoll rr, 1, 1)

/-- pollScrapingProgress (part_003 lines 276-328): the poll function starting
from zero consumed ticks, with enough fuel that the tick budget is what stops
the loop. -/
def pollScrapingProgress (statusScript : Nat → Except JsError RawStatusBody)
    (resultsScript : Nat → Except JsError RawResults) :
    Option (PollResult × Nat × Nat) :=
  pollAux statusScript resultsScript 0 0 (maxPolls + 1)

/-- handleCancel (App.jsx lines 87-100): when a job id is set it awaits
stopScraping and then resets the interface state.  It holds no reference to
the poll loop: nothing it does reaches pollScrapingProgress, whose behaviour
is a function of the status and results scripts alone. -/
def handleCancel (jobId : Option String) (stopResp : Except JsError RawStop) :
    Option (OpResult RawStop) :=
  if jsTruthyStr jobId then some (stopScraping stopResp) else none

/-- A status snapshot that keeps the loop polling: the body decodes, carries
is_running with truthiness true. -/
def okRunning (o : Except JsError RawStatusBody) : Bool :=
  match o with
  | .ok b => b.is_running == some true
  | .error _ => false

/-- Well-formedness of a resolved operation object, as claim C10 states it:
a failure carries an error message and a numeric status, a success carries
data. -/
def wfOp {α : Type} (o : OpResult α) : Bool :=
  if o.success then o.data.isSome else o.error.isSome && o.status.isSome

/-- Well-formedness of a resolved status object: a failure additionally
reports isRunning false and progress 0. -/
def wfStatus (s : StatusResult) : Bool :=
  if s.success then s.data.isSome && s.message.isSome
  else s.error.isSome && s.status.isSome && !s.isRunning && s.progress == 0

/-- Well-formedness of the object the poll loop resolves with: a success
carries a result payload, a failure carries an error message. -/
def wfPoll (r : PollResult) : Bool :=
  if r.success then r.data.isSome else r.error.isSome

/-- A truthy optional string is present. -/
theorem jsTruthyStr_isSome (o : Option String) (h : jsTruthyStr o = true) :
    o.isSome = true := by
  rcases o with _ | s
  · simp [jsTruthyStr] at h
  · rfl

/-- A snapshot that keeps the loop polling is a decoded body whose is_running
field is present and truthy. -/
theorem okRunning_elim (o : Except JsError RawStatusBody) (h : okRunning o = true) :
    ∃ b, o = .ok b ∧ b.is_running = some true := by
  rcases o with e | b
  · simp [okRunning] at h
  · exact ⟨b, rfl, by simpa [okRunning] using h⟩

/-- checkHealth always resolves with a well-formed object. -/
theorem checkHealth_wf (s : Nat → Except JsError RawHealth) :
    wfOp (checkHealth s) = true := by
  unfold checkHealth
  cases h : retryOverFetch s with
  | error e => simp [wfOp]
  | ok r =>
    rcases r with ⟨st⟩
    cases st <;> simp [wfOp]

/-- startScraping always resolves with a well-formed object. -/
theorem startScraping_wf (today : CivilDate) (date : String)
    (s : Nat → Except JsError RawScrape) :
    wfOp (startScraping today date s).1 = true := by
  unfold startScraping
  repeat' split
  all_goals simp [wfOp]

/-- getScrapingStatus always resolves with a well-formed object. -/
theorem getScrapingStatus_wf (resp : Except JsError RawStatusBody) :
    wfStatus (getScrapingStatus resp) = true := by
  rcases resp with e | r
  · simp [getScrapingStatus, wfStatus]
  · rcases h : r.is_running with _ | b
    · simp [getScrapingStatus, h, wfStatus]
    · simp [getScrapingStatus, h, wfStatus]

/-- getResults always resolves with a well-formed object. -/
theorem getResults_wf (resp : Except JsError RawResults) :
    wfOp (getResults resp) = true := by
  rcases resp with e | r
  · simp [getResults, wfOp]
  · by_cases h : (r.success == some true && r.orders.isSome) = true <;>
      simp [getResults, h, wfOp]

/-- stopScraping always resolves with a well-formed object. -/
theorem stopScraping_wf (resp : Except JsError RawStop) :
    wfOp (stopScraping resp) = true := by
  rcases resp with e | r <;> simp [stopScraping, wfOp]

/-- Claim C10: for every input, each of the five operations resolves (they are
total functions of the network transcript) and never surfaces an exception:
every failure is an object with success false, an error message and a numeric
status, every success is an object with success true carrying data, and
getScrapingStatus additionally reports isRunning false and progress 0 on
every failure. -/
theorem operations_always_resolve :
    (∀ s : Nat → Except JsError RawHealth, wfOp (checkHealth s) = true) ∧
    (∀ (today : CivilDate) (date : String) (s : Nat → Except JsError RawScrape),
      wfOp (startScraping today date s).1 = true) ∧
    (∀ resp : Except JsError RawStatusBody, wfStatus (getScrapingStatus resp) = true) ∧
    (∀ resp : Except JsError RawResults, wfOp (getResults resp) = true) ∧
    (∀ resp : Except JsError RawStop, wfOp (stopScraping resp) = true) :=
  ⟨checkHealth_wf, startScraping_wf, getScrapingStatus_wf, getResults_wf, stopScraping_wf⟩

/-- Claim C7: the backoff delay before retry attempt k (for k at least 2) is
RETRY_DELAY times 2 to the power (k-2) with RETRY_DELAY = 1000ms.  The delay
slept before attempt k is the backoff the source computes after failed attempt
k-1 (part_003 line 79); in a run whose every attempt fails with an HTTP 500
the delays slept are 1000ms before attempt 2 and 2000ms before attempt 3, the
latter double the former. -/
theorem backoff_doubles (k : Nat) (_h : 2 ≤ k) :
    backoffAfterAttempt (k - 1) = 1000 * 2 ^ (k - 2) ∧
    retryDelays
      (fun _ => (.error ⟨"ApiError", "HTTP 500: INTERNAL SERVER ERROR", 500⟩ :
        Except JsError RawScrape)) = [backoffAfterAttempt 1, backoffAfterAttempt 2] ∧
    backoffAfterAttempt 1 = 1000 ∧ backoffAfterAttempt 2 = 2000 ∧
    backoffAfterAttempt 2 = 2 * backoffAfterAttempt 1 := by
  exact ⟨rfl, by decide, by decide, by decide, by decide⟩

/-- Witness for the backoff formula at k = 3. -/
theorem backoff_doubles_witness :
    backoffAfterAttempt (3 - 1) = 1000 * 2 ^ (3 - 2) :=
  (backoff_doubles 3 (by decide)).1

/-- Claim C2 (code bug): every error makeRequest surfaces has constructor name
ApiError, because the catch block (part_003 lines 162-173) rewrites an
AbortError into an ApiError with status 408 before the retry classification at
line 77 can inspect it.  The AbortError arm of shouldRetry is therefore dead
code and a timed-out request is never retried: a fetch that times out makes
exactly one attempt, against the claim (and the dead arm's evident intent)
that timeouts are retryable.  The remaining parts of the claim hold: an HTTP
500 is retried up to exactly 3 attempts with the last error surfaced
unchanged, and an HTTP 400 makes exactly one attempt. -/
theorem timeout_never_retried :
    (∀ e : JsError, (makeRequestCatch e).name = "ApiError") ∧
    retryOverFetchAttempts
      (fun _ => (.error ⟨"AbortError", "signal is aborted without reason", 0⟩ :
        Except JsError RawStatusBody)) = 1 ∧
    shouldRetry (makeRequestCatch ⟨"AbortError", "signal is aborted without reason", 0⟩) = false ∧
    retryOverFetchAttempts
      (fun _ => (.error ⟨"ApiError", "HTTP 500: INTERNAL SERVER ERROR", 500⟩ :
        Except JsError RawStatusBody)) = 3 ∧
    retryOverFetch
      (fun _ => (.error ⟨"ApiError", "HTTP 500: INTERNAL SERVER ERROR", 500⟩ :
        Except JsError RawStatusBody)) =
      .error ⟨"ApiError", "HTTP 500: INTERNAL SERVER ERROR", 500⟩ ∧
    retryOverFetchAttempts
      (fun _ => (.error ⟨"ApiError", "HTTP 400: BAD REQUEST", 400⟩ :
        Except JsError RawStatusBody)) = 1 := by
  refine ⟨?_, by decide, by decide, by decide, by decide, by decide⟩
  intro e
  unfold makeRequestCatch
  split
  · rfl
  split
  next h => exact eq_of_beq h
  split
  · rfl
  split
  · rfl
  · rfl

/-- Claim C8 counterexample: on a status body that carries is_running but no
message field, getScrapingStatus reports the message Status retrieved
successfully, not the empty string the claim states. -/
theorem status_message_default_counterexample :
    (getScrapingStatus (.ok ⟨some true, some 50, none, none, none⟩)).message =
      some "Status retrieved successfully" ∧
    ¬ (getScrapingStatus (.ok ⟨some true, some 50, none, none, none⟩)).message = some "" := by
  decide

/-- Claim C8 (amended): getScrapingStatus fails when the field is_running is
absent; when it is present the call succeeds and the reported progress is
clamped into the interval 0..100; when the message field is absent the message
defaults to the string Status retrieved successfully (not the empty string). -/
theorem status_requires_running_clamps_progress (r : RawStatusBody) :
    (r.is_running = none →
      (getScrapingStatus (.ok r)).success = false ∧
      (getScrapingStatus (.ok r)).error = some "Missing required field: is_running") ∧
    (∀ b, r.is_running = some b →
      (getScrapingStatus (.ok r)).success = true ∧
      0 ≤ (getScrapingStatus (.ok r)).progress ∧
      (getScrapingStatus (.ok r)).progress ≤ 100) ∧
    (∀ b, r.is_running = some b → r.message = none →
      (getScrapingStatus (.ok r)).message = some "Status retrieved successfully") := by
  refine ⟨?_, ?_, ?_⟩
  · intro h
    simp [getScrapingStatus, h]
  · intro b h
    have hp : (getScrapingStatus (.ok r)).progress = clampProgress r.progress := by
      simp [getScrapingStatus, h]
    refine ⟨by simp [getScrapingStatus, h], ?_, ?_⟩ <;>
      rw [hp] <;> simp only [clampProgress] <;> omega
  · intro b h hm
    simp [getScrapingStatus, h, hm, jsOrDefault]

/-- Witness for the amended C8 at concrete bodies: a body without is_running
fails; a body with is_running and an out-of-range progress of 150 reports a
progress of at most 100; a body without message reports the default message. -/
theorem status_requires_running_clamps_progress_witness :
    (getScrapingStatus (.ok ⟨none, none, none, none, none⟩)).success = false ∧
    (getScrapingStatus (.ok ⟨some true, some 150, none, none, none⟩)).progress ≤ 100 ∧
    (getScrapingStatus (.ok ⟨some true, some 150, none, none, none⟩)).message =
      some "Status retrieved successfully" :=
  ⟨((status_requires_running_clamps_progress ⟨none, none, none, none, none⟩).1 rfl).1,
    ((status_requires_running_clamps_progress ⟨some true, some 150, none, none, none⟩).2.1
      true rfl).2.2,
    ((status_requires_running_clamps_progress ⟨some true, some 150, none, none, none⟩).2.2
      true rfl rfl)⟩

/-- No element matching the key survives the settle-time filter. -/
theorem find_filter_settle_none (k : String) (l : List (String × Nat)) :
    (l.filter (fun p => !(p.1 == k))).find? (fun p => p.1 == k) = none := by
  induction l with
  | nil => rfl
  | cons a t ih =>
    by_cases hak : (a.1 == k) = true
    · simp [List.filter_cons, hak, ih]
    · simp only [List.filter_cons, hak]
      simp only [Bool.not_false, if_pos]
      rw [List.find?_cons_of_neg _ (by simp [hak])]
      exact ih

/-- Claim C1: for a key with no outstanding request, the first makeRequest
call dispatches one network request and registers a shared promise; a second
call with the same key issued before the first settles receives the same
promise (hence the identical outcome), dispatches no network request and
leaves the registry unchanged; settling deletes the key, and an identical
call issued after settlement dispatches a fresh network request with a fresh
promise.  The key of a call is getRequestKey of its method, url and body, so
two calls with the same method, url and body use the same key. -/
theorem dedup_single_dispatch (st : RegState) (k : String)
    (h : hasKey st k = false) :
    ∃ pid st1,
      makeRequestReg st k = (pid, st1, true) ∧
      makeRequestReg st1 k = (pid, st1, false) ∧
      hasKey (settleReg st1 k) k = false ∧
      (makeRequestReg (settleReg st1 k) k).2.2 = true ∧
      (makeRequestReg (settleReg st1 k) k).1 ≠ pid := by
  have hnone : lookupKey st k = none := by
    unfold hasKey at h
    rcases hl : lookupKey st k with _ | pid
    · rfl
    · rw [hl] at h
      simp at h
  refine ⟨st.nextId, ⟨(k, st.nextId) :: st.active, st.nextId + 1⟩, ?_, ?_, ?_, ?_, ?_⟩
  · simp [makeRequestReg, hnone]
  · simp [makeRequestReg, lookupKey, List.find?_cons_of_pos]
  · simp only [hasKey, settleReg, lookupKey]
    rw [find_filter_settle_none]
    rfl
  · simp only [makeRequestReg, settleReg, lookupKey]
    rw [find_filter_settle_none]
  · simp only [makeRequestReg, settleReg, lookupKey]
    rw [find_filter_settle_none]
    simp

/-- Witness for C1 on the empty registry with the key of a POST of the scrape
body. -/
theorem dedup_single_dispatch_witness :
    ∃ pid st1,
      makeRequestReg ⟨[], 0⟩ (getRequestKey (some "POST") "/api/scrape" (some "date 2015-06-01")) =
        (pid, st1, true) ∧
      makeRequestReg st1 (getRequestKey (some "POST") "/api/scrape" (some "date 2015-06-01")) =
        (pid, st1, false) ∧
      hasKey (settleReg st1 (getRequestKey (some "POST") "/api/scrape" (some "date 2015-06-01")))
        (getRequestKey (some "POST") "/api/scrape" (some "date 2015-06-01")) = false ∧
      (makeRequestReg (settleReg st1 (getRequestKey (some "POST") "/api/scrape" (some "date 2015-06-01")))
        (getRequestKey (some "POST") "/api/scrape" (some "date 2015-06-01"))).2.2 = true ∧
      (makeRequestReg (settleReg st1 (getRequestKey (some "POST") "/api/scrape" (some "date 2015-06-01")))
        (getRequestKey (some "POST") "/api/scrape" (some "date 2015-06-01"))).1 ≠ pid :=
  dedup_single_dispatch ⟨[], 0⟩ _ rfl

/-- A string the date regular expression accepts is not empty. -/
theorem dateShape_empty_false (s : String) (h : dateShape s = true) :
    (s == "") = false := by
  rcases hb : s == "" with _ | _
  · rfl
  · exfalso
    have hs : s = "" := eq_of_beq hb
    rw [hs] at h
    exact absurd h (by decide)

/-- Claim C6: startScraping rejects, locally and without issuing the POST,
every string the shape test refuses, every well-formed date before 2010-01-01
and every well-formed date after the current day; in particular 2009-12-31 is
rejected without network traffic.  It accepts 2015-06-01 (the POST is issued,
and the call succeeds whenever the response carries a message field), and the
POST is issued only for a well-formed date between 2010-01-01 and the current
day. -/
theorem startScraping_validates (today : CivilDate)
    (fetchScript : Nat → Except JsError RawScrape) :
    (∀ s, dateShape s = false →
      (startScraping today s fetchScript).2 = false ∧
      (startScraping today s fetchScript).1.success = false) ∧
    (∀ s dt, dateShape s = true → parseCivil s = some dt →
      civilLt dt minScrapeDate = true →
      (startScraping today s fetchScript).2 = false ∧
      (startScraping today s fetchScript).1.success = false) ∧
    (∀ s dt, dateShape s = true → parseCivil s = some dt →
      civilLt today dt = true →
      (startScraping today s fetchScript).2 = false ∧
      (startScraping today s fetchScript).1.success = false) ∧
    ((startScraping today "2009-12-31" fetchScript).2 = false ∧
      (startScraping today "2009-12-31" fetchScript).1.success = false) ∧
    (civilLt today ⟨2015, 6, 1⟩ = false →
      (startScraping today "2015-06-01" fetchScript).2 = true ∧
      (∀ r, retryOverFetch fetchScript = .ok r → r.message.isSome = true →
        (startScraping today "2015-06-01" fetchScript).1.success = true)) ∧
    (∀ s, (startScraping today s fetchScript).2 = true →
      ∃ dt, parseCivil s = some dt ∧ civilLt today dt = false ∧
        civilLt dt minScrapeDate = false) := by
  have hshape : ∀ s dt, dateShape s = true → parseCivil s = some dt →
      civilLt dt minScrapeDate = true →
      (startScraping today s fetchScript).2 = false ∧
      (startScraping today s fetchScript).1.success = false := by
    intro s dt h hp hlt
    have he := dateShape_empty_false s h
    rcases hf : civilLt today dt with _ | _ <;>
      simp [startScraping, he, h, hp, hf, hlt]
  refine ⟨?_, hshape, ?_, ?_, ?_, ?_⟩
  · intro s h
    by_cases he : (s == "") = true <;> simp [startScraping, he, h]
  · intro s dt h hp hf
    have he := dateShape_empty_false s h
    simp [startScraping, he, h, hp, hf]
  · exact hshape "2009-12-31" ⟨2009, 12, 31⟩ (by decide) (by decide) (by decide)
  · intro hnf
    have he : (("2015-06-01" : String) == "") = false := by decide
    have h : dateShape "2015-06-01" = true := by decide
    have hp : parseCivil "2015-06-01" = some ⟨2015, 6, 1⟩ := by decide
    have hmin : civilLt ⟨2015, 6, 1⟩ minScrapeDate = false := by decide
    constructor
    · rcases hr : retryOverFetch fetchScript with e | r
      · simp [startScraping, he, h, hp, hnf, hmin, hr]
      · rcases hm : r.message with _ | m <;>
          simp [startScraping, he, h, hp, hnf, hmin, hr, hm]
    · intro r hr hm
      rcases hms : r.message with _ | m
      · rw [hms] at hm
        exact absurd hm (by decide)
      · simp [startScraping, he, h, hp, hnf, hmin, hr, hms]
  · intro s hnet
    by_cases he : (s == "") = true
    · simp [startScraping, he] at hnet
    by_cases h : dateShape s = true
    · rcases hp : parseCivil s with _ | dt
      · simp [startScraping, he, h, hp] at hnet
      · by_cases hf : civilLt today dt = true
        · simp [startScraping, he, h, hp, hf] at hnet
        · by_cases hmin : civilLt dt minScrapeDate = true
          · simp [startScraping, he, h, hp, hf, hmin] at hnet
          · exact ⟨dt, rfl, by simpa using hf, by simpa using hmin⟩
    · simp [startScraping, he, h] at hnet

/-- Witness for C6 with the current day 2026-10-11 and a server that accepts
the start request: 2009-12-31, a future date and a malformed string are
rejected without network traffic, 2015-06-01 is accepted. -/
theorem startScraping_validates_witness :
    ((startScraping ⟨2026, 10, 11⟩ "2009-12-31" (fun _ => .ok ⟨some "started"⟩)).2 = false ∧
      (startScraping ⟨2026, 10, 11⟩ "2009-12-31" (fun _ => .ok ⟨some "started"⟩)).1.success = false) ∧
    ((startScraping ⟨2026, 10, 11⟩ "2027-01-01" (fun _ => .ok ⟨some "started"⟩)).2 = false ∧
      (startScraping ⟨2026, 10, 11⟩ "2027-01-01" (fun _ => .ok ⟨some "started"⟩)).1.success = false) ∧
    ((startScraping ⟨2026, 10, 11⟩ "not-a-date" (fun _ => .ok ⟨some "started"⟩)).2 = false ∧
      (startScraping ⟨2026, 10, 11⟩ "not-a-date" (fun _ => .ok ⟨some "started"⟩)).1.success = false) ∧
    ((startScraping ⟨2026, 10, 11⟩ "2015-06-01" (fun _ => .ok ⟨some "started"⟩)).2 = true ∧
      (startScraping ⟨2026, 10, 11⟩ "2015-06-01" (fun _ => .ok ⟨some "started"⟩)).1.success = true) := by
  have h := startScraping_validates ⟨2026, 10, 11⟩ (fun _ => .ok ⟨some "started"⟩)
  refine ⟨h.2.2.2.1, ?_, h.1 "not-a-date" (by decide), ?_⟩
  · exact h.2.2.1 "2027-01-01" ⟨2027, 1, 1⟩ (by decide) (by decide) (by decide)
  · have ha := h.2.2.2.2.1 (by decide)
    exact ⟨ha.1, ha.2 ⟨some "started"⟩ rfl rfl⟩

/-- Auxiliary step lemma for claim C3: from any mid-run position, a run of n
running snapshots followed by a decoded snapshot that is not running and
carries a truthy error resolves the loop with that error, after exactly n + 1
status polls and no getResults call. -/
theorem pollAux_running_then_error (statusScript : Nat → Except JsError RawStatusBody)
    (resultsScript : Nat → Except JsError RawResults) (bN : RawStatusBody)
    (hnr : bN.is_running = some false) (herr : jsTruthyStr bN.error = true) :
    ∀ (n pc rIdx fuel : Nat),
      fuel + pc = maxPolls + 1 →
      pc + n + 1 ≤ maxPolls →
      (∀ i, i < n → okRunning (statusScript (pc + i)) = true) →
      statusScript (pc + n) = .ok bN →
      pollAux statusScript resultsScript pc rIdx fuel =
        some (⟨false, bN.error, none, none, bN.message⟩, n + 1, 0) := by
  intro n
  induction n with
  | zero =>
    intro pc rIdx fuel hfuel hbound _hrun hdone
    simp only [maxPolls] at hfuel hbound
    obtain ⟨f, rfl⟩ : ∃ f, fuel = f + 1 := ⟨fuel - 1, by omega⟩
    have hpc : ¬ (maxPolls < pc + 1) := by simp only [maxPolls]; omega
    rw [Nat.add_zero] at hdone
    simp only [pollAux, Nat.add_sub_cancel]
    rw [if_neg hpc, hdone]
    simp [getScrapingStatus, hnr, herr]
  | succ n ih =>
    intro pc rIdx fuel hfuel hbound hrun hdone
    simp only [maxPolls] at hfuel hbound
    obtain ⟨f, rfl⟩ : ∃ f, fuel = f + 1 := ⟨fuel - 1, by omega⟩
    have hpc : ¬ (maxPolls < pc + 1) := by simp only [maxPolls]; omega
    obtain ⟨b0, hb0, hb0run⟩ := okRunning_elim (statusScript pc)
      (by simpa using hrun 0 (Nat.succ_pos n))
    have hdone' : statusScript (pc + 1 + n) = .ok bN := by
      rw [show pc + 1 + n = pc + (n + 1) by omega]
      exact hdone
    have hrun' : ∀ i, i < n → okRunning (statusScript (pc + 1 + i)) = true := by
      intro i hi
      have := hrun (i + 1) (by omega)
      rwa [show pc + (i + 1) = pc + 1 + i by omega] at this
    have hrec := ih (pc + 1) rIdx f (by simp only [maxPolls]; omega)
      (by simp only [maxPolls]; omega) hrun' hdone'
    simp only [pollAux, Nat.add_sub_cancel]
    rw [if_neg hpc, hb0]
    simp [getScrapingStatus, hb0run, hrec]

/-- Claim C3: for every status sequence of n running snapshots (n + 1 within
the tick budget) followed by a decoded snapshot that is not running and
carries a truthy error, the loop resolves with a failure carrying exactly that
error (and that snapshot's message), after exactly n + 1 status polls, and
getResults is never called. -/
theorem poll_error_snapshot_fails (statusScript : Nat → Except JsError RawStatusBody)
    (resultsScript : Nat → Except JsError RawResults) (n : Nat) (bN : RawStatusBody)
    (hn : n + 1 ≤ maxPolls)
    (hrun : ∀ i, i < n → okRunning (statusScript i) = true)
    (hdone : statusScript n = .ok bN)
    (hnr : bN.is_running = some false)
    (herr : jsTruthyStr bN.error = true) :
    pollScrapingProgress statusScript resultsScript =
      some (⟨false, bN.error, none, none, bN.message⟩, n + 1, 0) := by
  unfold pollScrapingProgress
  exact pollAux_running_then_error statusScript resultsScript bN hnr herr n 0 0
    (maxPolls + 1) (by omega) (by omega) (by simpa using hrun) (by simpa using hdone)

/-- Witness for C3: three running ticks followed by a done snapshot with error
x resolve as a failure with message x after 4 status polls and no getResults
call. -/
theorem poll_error_snapshot_fails_witness :
    pollScrapingProgress
      (fun i => if i < 3 then .ok ⟨some true, some 10, none, none, none⟩
        else .ok ⟨some false, some 100, some "m", some "x", none⟩)
      (fun _ => .error ⟨"ApiError", "unused", 0⟩) =
      some (⟨false, some "x", none, none, some "m"⟩, 4, 0) := by
  have h := poll_error_snapshot_fails
    (fun i => if i < 3 then .ok ⟨some true, some 10, none, none, none⟩
      else .ok ⟨some false, some 100, some "m", some "x", none⟩)
    (fun _ => .error ⟨"ApiError", "unused", 0⟩) 3
    ⟨some false, some 100, some "m", some "x", none⟩
    (by decide) (by intro i hi; simp [hi, okRunning]) (by norm_num) rfl (by decide)
  simpa using h

/-- Auxiliary lemma for claim C5: from any mid-run position with enough fuel
(fuel plus consumed ticks equals the budget plus one), the poll function
resolves - the fuel sentinel is unreachable - with at most fuel - 1 further
status polls, and the resolved object is well-formed. -/
theorem pollAux_resolves (statusScript : Nat → Except JsError RawStatusBody)
    (resultsScript : Nat → Except JsError RawResults) :
    ∀ (fuel pc rIdx : Nat), 1 ≤ fuel → fuel + pc = maxPolls + 1 →
      ∃ r sp gr, pollAux statusScript resultsScript pc rIdx fuel = some (r, sp, gr) ∧
        sp ≤ fuel - 1 ∧ wfPoll r = true := by
  intro fuel
  induction fuel with
  | zero =>
    intro pc rIdx h1 _h2
    exact absurd h1 (by decide)
  | succ f ih =>
    intro pc rIdx _h1 h2
    by_cases hpc : maxPolls < pc + 1
    · refine ⟨pollTimeoutResult, 0, 0, ?_, by omega, by decide⟩
      simp [pollAux, hpc]
    · have hf1 : 1 ≤ f := by simp only [maxPolls] at hpc h2; omega
      rcases hs : statusScript pc with e | b
      · refine ⟨⟨false, some e.message, some e.status, none, none⟩, 1, 0, ?_, by omega,
          by simp [wfPoll]⟩
        simp only [pollAux, Nat.add_sub_cancel]
        rw [if_neg hpc, hs]
        simp [getScrapingStatus]
      · rcases hb : b.is_running with _ | br
        · refine ⟨⟨false, some "Missing required field: is_running", some 0, none, none⟩, 1, 0,
            ?_, by omega, by simp [wfPoll]⟩
          simp only [pollAux, Nat.add_sub_cancel]
          rw [if_neg hpc, hs]
          simp [getScrapingStatus, hb]
        · cases br with
          | true =>
            obtain ⟨r, sp, gr, hrec, hsp, hwf⟩ := ih (pc + 1) rIdx hf1
              (by simp only [maxPolls] at h2 ⊢; omega)
            refine ⟨r, sp + 1, gr, ?_, by omega, hwf⟩
            simp only [pollAux, Nat.add_sub_cancel]
            rw [if_neg hpc, hs]
            simp [getScrapingStatus, hb, hrec]
          | false =>
            by_cases he : jsTruthyStr b.error = true
            · refine ⟨⟨false, b.error, none, none, b.message⟩, 1, 0, ?_, by omega, ?_⟩
              · simp only [pollAux, Nat.add_sub_cancel]
                rw [if_neg hpc, hs]
                simp [getScrapingStatus, hb, he]
              · simp [wfPoll, jsTruthyStr_isSome b.error he]
            · rcases hres : b.results with _ | res
              · by_cases hg : (getResults (resultsScript rIdx)).success = false
                · obtain ⟨r, sp, gr, hrec, hsp, hwf⟩ := ih (pc + 1) (rIdx + 1) hf1
                    (by simp only [maxPolls] at h2 ⊢; omega)
                  refine ⟨r, sp + 1, gr + 1, ?_, by omega, hwf⟩
                  simp only [pollAux, Nat.add_sub_cancel]
                  rw [if_neg hpc, hs]
                  simp [getScrapingStatus, hb, he, hres, hg, hrec]
                · refine ⟨opToPoll (getResults (resultsScript rIdx)), 1, 1, ?_, by omega, ?_⟩
                  · simp only [pollAux, Nat.add_sub_cancel]
                    rw [if_neg hpc, hs]
                    simp [getScrapingStatus, hb, he, hres, hg]
                  · have hwf := getResults_wf (resultsScript rIdx)
                    have hsucc : (getResults (resultsScript rIdx)).success = true := by
                      rcases hx : (getResults (resultsScript rIdx)).success with _ | _
                      · exact absurd hx hg
                      · rfl
                    simp only [wfOp, hsucc, if_true] at hwf
                    simp [wfPoll, opToPoll, hsucc, hwf]
              · refine ⟨⟨true, none, none, some res, some "Scraping completed successfully"⟩,
                  1, 0, ?_, by omega, by simp [wfPoll]⟩
                simp only [pollAux, Nat.add_sub_cancel]
                rw [if_neg hpc, hs]
                simp [getScrapingStatus, hb, he, hres]

/-- Auxiliary lemma for claim C5: if every snapshot keeps the job running, the
poll function exhausts its budget and resolves with the timeout outcome after
fuel - 1 status polls and no getResults call. -/
theorem pollAux_always_running (statusScript : Nat → Except JsError RawStatusBody)
    (resultsScript : Nat → Except JsError RawResults)
    (hrun : ∀ i, okRunning (statusScript i) = true) :
    ∀ (fuel pc rIdx : Nat), 1 ≤ fuel → fuel + pc = maxPolls + 1 →
      pollAux statusScript resultsScript pc rIdx fuel =
        some (pollTimeoutResult, fuel - 1, 0) := by
  intro fuel
  induction fuel with
  | zero =>
    intro pc rIdx h1 _h2
    exact absurd h1 (by decide)
  | succ f ih =>
    intro pc rIdx _h1 h2
    by_cases hpc : maxPolls < pc + 1
    · have hf : f = 0 := by simp only [maxPolls] at hpc h2; omega
      subst hf
      simp [pollAux, hpc]
    · have hf1 : 1 ≤ f := by simp only [maxPolls] at hpc h2; omega
      obtain ⟨b, hb, hbr⟩ := okRunning_elim (statusScript pc) (hrun pc)
      have hrec := ih (pc + 1) rIdx hf1 (by simp only [maxPolls] at h2 ⊢; omega)
      simp only [pollAux, Nat.add_sub_cancel]
      rw [if_neg hpc, hb]
      simp only [getScrapingStatus, hbr]
      simp [hrec, show f - 1 + 1 = f by omega]

/-- Claim C5: the poll loop always resolves (never the fuel sentinel), with at
most 300 status polls, and the resolved object is terminal and well-formed: a
success carrying a result payload or a failure carrying an error message.
When no snapshot ever reaches a terminal condition, the tick budget is
exhausted and the loop resolves with the dedicated timeout outcome (status
408) after exactly 300 status polls. -/
theorem poll_bounded_and_terminal (statusScript : Nat → Except JsError RawStatusBody)
    (resultsScript : Nat → Except JsError RawResults) :
    (∃ r sp gr, pollScrapingProgress statusScript resultsScript = some (r, sp, gr) ∧
      sp ≤ maxPolls ∧ wfPoll r = true) ∧
    ((∀ i, okRunning (statusScript i) = true) →
      pollScrapingProgress statusScript resultsScript =
        some (pollTimeoutResult, maxPolls, 0)) := by
  constructor
  · obtain ⟨r, sp, gr, h, hsp, hwf⟩ := pollAux_resolves statusScript resultsScript
      (maxPolls + 1) 0 0 (by omega) (by omega)
    exact ⟨r, sp, gr, h, by omega, hwf⟩
  · intro hrun
    have h := pollAux_always_running statusScript resultsScript hrun
      (maxPolls + 1) 0 0 (by omega) (by omega)
    simpa using h

/-- Witness for C5: a server that reports running forever makes the loop time
out after exactly 300 status polls. -/
theorem poll_bounded_and_terminal_witness :
    pollScrapingProgress (fun _ => .ok ⟨some true, some 10, none, none, none⟩)
      (fun _ => .error ⟨"ApiError", "unused", 0⟩) =
      some (pollTimeoutResult, maxPolls, 0) :=
  (poll_bounded_and_terminal _ _).2 (fun _ => rfl)

/-- Claim C9 counterexample: status polls are not issued through the retrying
request path.  On a fetch script whose first attempt fails with an HTTP 500
(a retryable failure) and whose later attempts succeed, the source's status
call (a single makeRequest, getStatusViaMakeRequest) fails, while the
retrying path the claim asserts (getStatusSpecRetry, modelled from the spec)
would succeed. -/
theorem status_poll_not_retried_counterexample :
    (getStatusViaMakeRequest
      (fun n => if n == 1 then .error ⟨"ApiError", "HTTP 500: INTERNAL SERVER ERROR", 500⟩
        else .ok ⟨some true, some 10, none, none, none⟩)).success = false ∧
    (getStatusSpecRetry
      (fun n => if n == 1 then .error ⟨"ApiError", "HTTP 500: INTERNAL SERVER ERROR", 500⟩
        else .ok ⟨some true, some 10, none, none, none⟩)).success = true := by
  decide

/-- A tick whose status poll fails resolves the loop at once with that
failure. -/
theorem pollAux_first_fail (statusScript : Nat → Except JsError RawStatusBody)
    (resultsScript : Nat → Except JsError RawResults) (e : JsError)
    (pc rIdx f : Nat) (hpc : ¬ (maxPolls < pc + 1)) (h : statusScript pc = .error e) :
    pollAux statusScript resultsScript pc rIdx (f + 1) =
      some (⟨false, some e.message, some e.status, none, none⟩, 1, 0) := by
  simp only [pollAux, Nat.add_sub_cancel]
  rw [if_neg hpc, h]
  simp [getScrapingStatus]

/-- Claim C9 (amended): when the first status poll fails (transport or
validation failure already normalised by makeRequest), the poll loop resolves
immediately with that failure - one status poll, no getResults call, no
loop-level retry of the poll; and the status request of the source is a
single makeRequest call on its first fetch outcome, not the retrying path. -/
theorem poll_failure_immediate (statusScript : Nat → Except JsError RawStatusBody)
    (resultsScript : Nat → Except JsError RawResults) (e : JsError)
    (h : statusScript 0 = .error e) :
    pollScrapingProgress statusScript resultsScript =
      some (⟨false, some e.message, some e.status, none, none⟩, 1, 0) ∧
    (∀ fetchScript : Nat → Except JsError RawStatusBody,
      getStatusViaMakeRequest fetchScript =
        getScrapingStatus (makeRequestOutcome (fetchScript 1))) := by
  constructor
  · exact pollAux_first_fail statusScript resultsScript e 0 0 maxPolls (by decide) h
  · intro fetchScript
    rfl

/-- Witness for the amended C9: a first status poll failing with an HTTP 500
resolves the loop immediately with that error after one poll. -/
theorem poll_failure_immediate_witness :
    pollScrapingProgress (fun _ => .error ⟨"ApiError", "HTTP 500: INTERNAL SERVER ERROR", 500⟩)
      (fun _ => .error ⟨"ApiError", "unused", 0⟩) =
      some (⟨false, some "HTTP 500: INTERNAL SERVER ERROR", some 500, none, none⟩, 1, 0) :=
  (poll_failure_immediate _ _ _ rfl).1

/-- Claim C4 counterexample: an explicit cancel does not stop the poll loop.
Scenario: the job is running at tick 1; the caller cancels right after tick 1
(handleCancel issues the stop call, which succeeds, and the server stops, so
from tick 2 every snapshot reports not running with an inline result).  The
claim says the loop transitions immediately to a terminal Cancelled state and
no further status poll occurs; the loop instead performs a second status poll
after the cancel and resolves with a success outcome - the model of the loop
has no cancellation input at all (pollScrapingProgress is a function of the
status and results scripts alone), matching the source, where nothing in
handleCancel reaches the loop. -/
theorem cancel_does_not_stop_loop :
    handleCancel (some "job1") (.ok ⟨some "stopped"⟩) =
      some ⟨true, some ⟨some "stopped"⟩, some "Scraping stopped successfully", none, none⟩ ∧
    pollScrapingProgress
      (fun i => if i == 0 then .ok ⟨some true, some 50, none, none, none⟩
        else .ok ⟨some false, some 100, none, none, some ⟨some true, some []⟩⟩)
      (fun _ => .error ⟨"ApiError", "unused", 0⟩) =
      some (⟨true, none, none, some ⟨some true, some []⟩,
        some "Scraping completed successfully"⟩, 2, 0) ∧
    (2 : Nat) ≠ 1 := by
  refine ⟨by decide, by decide, by decide⟩

/-- Claim C4 (amended): an explicit cancel issues the best-effort stop call
exactly when a job id is set, and does nothing else observable to the loop:
the loop is a function of the status and results scripts alone, so it keeps
polling after a cancel until one of its own terminal conditions - in the
scenario of the counterexample a second status poll follows the cancel and
the loop resolves through its normal success path; no Cancelled outcome
exists. -/
theorem cancel_issues_stop_only (jobId : String) (stopResp : Except JsError RawStop)
    (h : (jobId == "") = false) :
    handleCancel (some jobId) stopResp = some (stopScraping stopResp) ∧
    (∀ (statusScript : Nat → Except JsError RawStatusBody)
        (resultsScript : Nat → Except JsError RawResults),
      pollScrapingProgress statusScript resultsScript =
        pollAux statusScript resultsScript 0 0 (maxPolls + 1)) ∧
    pollScrapingProgress
      (fun i => if i == 0 then .ok ⟨some true, some 70, none, none, none⟩
        else .ok ⟨some false, some 100, some "done", none, some ⟨some true, some ["o1"]⟩⟩)
      (fun _ => .error ⟨"ApiError", "unused", 0⟩) =
      some (⟨true, none, none, some ⟨some true, some ["o1"]⟩,
        some "Scraping completed successfully"⟩, 2, 0) := by
  refine ⟨?_, fun _ _ => rfl, by decide⟩
  simp [handleCancel, jsTruthyStr, h]

/-- Witness for the amended C4 at a concrete job id and stop response. -/
theorem cancel_issues_stop_only_witness :
    handleCancel (some "job1") (.ok ⟨some "stopped"⟩) =
      some (stopScraping (.ok ⟨some "stopped"⟩)) :=
  (cancel_issues_stop_only "job1" (.ok ⟨some "stopped"⟩) rfl).1
